import Mathlib

/-!
Verification development for the `rents` repository
(`rents/rental_management_system/api.py` and
`rents/patches/create_landlord_tenant_roles.py`).

The Python endpoint handlers are shallowly embedded as pure Lean functions
over explicit table states.  SQL tables become lists of records, the Frappe
document store becomes a `DB` record, monetary SQL columns become exact
rationals (`Rat`), Python `dict` payloads become records with `Option`
fields (`none` = key absent / SQL NULL), and Python truthiness is made
explicit wherever the source relies on it.  The external file-storage
collaborator (`frappe.utils.file_manager.save_file`) is modelled from the
specification, since its code is not part of this repository.
-/

/-! ## Payments (`get_total_rent_paid_all`, `get_pending_rent`) -/

/-- A row of the `tabPayment` table.  `amount_tzs` is modelled as an exact
rational; `docstatus` is the submission-status flag (0 = pending,
1 = confirmed). -/
structure Payment where
  name : String
  rental : String
  amount_tzs : Rat
  payment_date : String
  payment_method : String
  docstatus : Nat
  end_date : String
deriving DecidableEq

/-- `SELECT SUM(amount_tzs) FROM tabPayment WHERE docstatus = d`:
SQL `SUM` over an empty row set is NULL (`none`). -/
def sum_amount_where (table : List Payment) (d : Nat) : Option Rat :=
  let rows := table.filter (fun p => p.docstatus == d)
  if rows.isEmpty then none else some ((rows.map (fun p => p.amount_tzs)).sum)

/-- `get_total_rent_paid_all` : the SQL sum over confirmed rows;
the Python `total_rent[0][0] if total_rent and total_rent[0][0] else 0.0`
turns a NULL or zero sum into `0.0`. -/
def get_total_rent_paid_all (table : List Payment) : Rat :=
  match sum_amount_where table 1 with
  | some s => if s = 0 then 0 else s
  | none => 0

/-- `get_pending_rent` : the SQL sum over pending rows with the same
NULL/zero handling as `get_total_rent_paid_all`. -/
def get_pending_rent (table : List Payment) : Rat :=
  match sum_amount_where table 0 with
  | some s => if s = 0 then 0 else s
  | none => 0

/-! ## Role seeding patch (`rents/patches/create_landlord_tenant_roles.py`) -/

/-- A row of the `tabRole` table; the role name is its primary key, and the
patch sets the desk-access and custom flags to 1. -/
structure Role where
  role_name : String
  desk_access : Nat
  is_custom : Nat
deriving DecidableEq

/-- `frappe.db.exists("Role", nm)` : is there a role record named `nm`? -/
def role_exists (st : List Role) (nm : String) : Bool :=
  st.any (fun r => r.role_name == nm)

/-- The role record inserted for "Landlord". -/
def landlord_role : Role := { role_name := "Landlord", desk_access := 1, is_custom := 1 }

/-- The role record inserted for "Tenant". -/
def tenant_role : Role := { role_name := "Tenant", desk_access := 1, is_custom := 1 }

namespace create_landlord_tenant_roles

/-- The patch `execute`: insert the "Landlord" role if absent, then the
"Tenant" role if absent (the second existence check sees the first insert). -/
def execute (st : List Role) : List Role :=
  let st1 := if role_exists st "Landlord" then st else st ++ [landlord_role]
  if role_exists st1 "Tenant" then st1 else st1 ++ [tenant_role]

end create_landlord_tenant_roles

/-! ## Image payload values and the file-storage collaborator -/

/-- The value found under an image key of a request payload: a JSON null,
a string, or a structured payload (a dict of string fields, queried with
`.get`).  Python truthiness on these values is `ImgValue.truthy`. -/
inductive ImgValue where
  | null
  | str (s : String)
  | dict (d : List (String × String))
deriving DecidableEq

/-- Python truthiness of an image payload value: `None` and `""` and `{}`
are falsy, everything else is truthy. -/
def ImgValue.truthy : ImgValue → Bool
  | .null => false
  | .str s => s != ""
  | .dict d => d != []

/-- A file persisted by the external file-storage collaborator, recorded
with the document it was attached to. -/
structure StoredFile where
  filename : String
  content : String
  attached_to : String
deriving DecidableEq

/-- The state of the external file store. -/
structure FileStore where
  files : List StoredFile
deriving DecidableEq

/-- The canonical public file reference produced for a stored file. -/
def file_url_of (filename : String) : String := "/files/" ++ filename

/-- Modelled from the spec: the external file-storage collaborator
`save_file` (from `frappe.utils.file_manager`, not part of this repository)
"persists that content as a stored file attached to the owning record and
returns the resulting canonical file reference"; the files are public
(`is_private=0`), so the reference carries the public path prefix. -/
def save_file (filename content docname : String) (st : FileStore) : String × FileStore :=
  (file_url_of filename, { files := ⟨filename, content, docname⟩ :: st.files })

/-! ## Property documents and payloads -/

/-- A `Property` document / row of `tabProperty`.  Scalar columns are
nullable (`none` = NULL); the five image columns hold a file-URL string,
`""` when unset. -/
structure Property where
  name : String
  title : Option String
  location : Option String
  price_tzs : Option String
  bedrooms : Option String
  bathroom : Option String
  square_meters : Option String
  description : Option String
  status : Option String
  image : String
  image_1 : String
  image_2 : String
  image_3 : String
  image_4 : String
deriving DecidableEq

/-- A request payload for `create_property` / `update_property`: each field
is `none` when the key is absent from the dict, `some v` when present with
value `v`. -/
structure PropData where
  title : Option String
  location : Option String
  price_tzs : Option String
  bedrooms : Option String
  bathroom : Option String
  square_meters : Option String
  description : Option String
  status : Option String
  image : Option ImgValue
  image_1 : Option ImgValue
  image_2 : Option ImgValue
  image_3 : Option ImgValue
  image_4 : Option ImgValue
deriving DecidableEq

/-- The image-slot list iterated by both property endpoints. -/
def image_fields : List String := ["image", "image_1", "image_2", "image_3", "image_4"]

/-- `field in data` / `data[field]` for the image slots: `some v` when the
key is present with value `v`. -/
def PropData.getImage (d : PropData) (f : String) : Option ImgValue :=
  if f = "image" then d.image
  else if f = "image_1" then d.image_1
  else if f = "image_2" then d.image_2
  else if f = "image_3" then d.image_3
  else if f = "image_4" then d.image_4
  else none

/-- `property_doc.set(field, url)` for an image slot. -/
def Property.setImage (p : Property) (f : String) (u : String) : Property :=
  if f = "image" then { p with image := u }
  else if f = "image_1" then { p with image_1 := u }
  else if f = "image_2" then { p with image_2 := u }
  else if f = "image_3" then { p with image_3 := u }
  else if f = "image_4" then { p with image_4 := u }
  else p

/-- Read an image slot of a property document by field name. -/
def Property.getImageField (p : Property) (f : String) : String :=
  if f = "image" then p.image
  else if f = "image_1" then p.image_1
  else if f = "image_2" then p.image_2
  else if f = "image_3" then p.image_3
  else if f = "image_4" then p.image_4
  else ""

/-- `handle_image_upload(doc, field_name, file_data)` threaded through the
file-store state.  Mirrors the source: falsy input returns nothing; a
string is returned unchanged when it starts with a recognized storage path
prefix and otherwise yields nothing; a structured payload needs truthy
`filename` and `content`, in which case the file is saved and its canonical
reference returned. -/
def handle_image_upload (doc : Property) (field_name : String) (file_data : ImgValue)
    (st : FileStore) : Option String × FileStore :=
  if !file_data.truthy then (none, st)
  else
    match file_data with
    | .str s =>
        if s.startsWith "/files/" || s.startsWith "/private/files/" then (some s, st)
        else (none, st)
    | .dict d =>
        match d.lookup "filename", d.lookup "content" with
        | some f, some c =>
            if f != "" && c != "" then
              let r := save_file f c doc.name st
              (some r.1, r.2)
            else (none, st)
        | _, _ => (none, st)
    | .null => (none, st)

/-- The store-independent first component of `handle_image_upload`: the
reference (if any) an image payload value resolves to. -/
def resolve_ref : ImgValue → Option String
  | .null => none
  | .str s =>
      if s = "" then none
      else if s.startsWith "/files/" || s.startsWith "/private/files/" then some s
      else none
  | .dict d =>
      if d = [] then none
      else
        match d.lookup "filename", d.lookup "content" with
        | some f, some c => if f != "" && c != "" then some (file_url_of f) else none
        | _, _ => none

/-- The image loop of `update_property` (lines 161-166): for each slot
whose key is **present** in `data`, call `handle_image_upload` and set the
slot when a truthy reference comes back.  The third component records, in
order, the slots for which `handle_image_upload` was invoked. -/
def update_image_loop (fields : List String) (data : PropData) (doc : Property)
    (st : FileStore) : Property × FileStore × List String :=
  match fields with
  | [] => (doc, st, [])
  | f :: rest =>
      match data.getImage f with
      | none => update_image_loop rest data doc st
      | some v =>
          let r := handle_image_upload doc f v st
          let doc' := match r.1 with
            | some u => if u != "" then doc.setImage f u else doc
            | none => doc
          let q := update_image_loop rest data doc' r.2
          (q.1, q.2.1, f :: q.2.2)

/-- The image loop of `create_property` (lines 121-126): identical to the
update loop except that a slot is processed only when its key is present
**and** its value is truthy (`if field in data and data[field]`). -/
def create_image_loop (fields : List String) (data : PropData) (doc : Property)
    (st : FileStore) : Property × FileStore × List String :=
  match fields with
  | [] => (doc, st, [])
  | f :: rest =>
      match data.getImage f with
      | none => create_image_loop rest data doc st
      | some v =>
          if v.truthy then
            let r := handle_image_upload doc f v st
            let doc' := match r.1 with
              | some u => if u != "" then doc.setImage f u else doc
              | none => doc
            let q := create_image_loop rest data doc' r.2
            (q.1, q.2.1, f :: q.2.2)
          else create_image_loop rest data doc st

/-- Whether the create loop invokes `handle_image_upload` for slot `f`:
the key is present and its value truthy. -/
def create_attempted (data : PropData) (f : String) : Bool :=
  match data.getImage f with
  | some v => v.truthy
  | none => false

/-- Scalar update helper: a present payload value overrides the stored one
(`if field in data: property_doc.set(field, data.get(field))`). -/
def upd_scalar (new old : Option String) : Option String :=
  match new with
  | some v => some v
  | none => old

/-- The scalar-field loop of `update_property` over its `updateable_fields`
allowlist, with the per-field updates merged into one record update (the
fields are pairwise distinct, so the sequential loop computes exactly
this). -/
def set_updateable_fields (doc : Property) (data : PropData) : Property :=
  { doc with
    title := upd_scalar data.title doc.title
    location := upd_scalar data.location doc.location
    price_tzs := upd_scalar data.price_tzs doc.price_tzs
    bedrooms := upd_scalar data.bedrooms doc.bedrooms
    bathroom := upd_scalar data.bathroom doc.bathroom
    status := upd_scalar data.status doc.status
    description := upd_scalar data.description doc.description
    square_meters := upd_scalar data.square_meters doc.square_meters }

/-! ## The document store -/

/-- A row of `tabUser` (projected to the fields this code reads). -/
structure User where
  name : String
  email : String
  full_name : String
  user_image : String
  phone : String
  enabled : Bool
deriving DecidableEq

/-- A row of the `tabHas Role` role-assignment join table. -/
structure HasRole where
  parent : String
  role : String
deriving DecidableEq

/-- A row of `tabRental` (projected to the fields this code reads);
`creation` is the framework's creation timestamp. -/
structure Rental where
  name : String
  property : String
  tenant : String
  status : String
  start_date : String
  end_date : String
  monthly_rent : Rat
  creation : Nat
deriving DecidableEq

/-- The backing relational store, as seen by the handlers. -/
structure DB where
  users : List User
  has_roles : List HasRole
  rentals : List Rental
  properties : List Property
deriving DecidableEq

/-- `frappe.get_doc("Property", nm)`: the stored property named `nm`,
`none` when it does not exist (`frappe.DoesNotExistError`). -/
def find_property (db : DB) (nm : String) : Option Property :=
  db.properties.find? (fun p => p.name == nm)

/-- `property_doc.save()`: write the document back over the stored row with
the same name. -/
def save_property (db : DB) (doc : Property) : DB :=
  { db with properties := db.properties.map (fun p => if p.name == doc.name then doc else p) }

/-- The success / error payload returned by the property endpoints. -/
inductive ApiResult where
  | ok (message : String) (property : String)
  | err (error : String)
deriving DecidableEq

/-- Python string interpolation of a nullable title. -/
def str_of_title : Option String → String
  | some s => s
  | none => "None"

/-- `create_property(data)`: build the document from the payload's
allowlisted scalar fields, insert it (the framework assigns `new_name`),
run the create image loop, save, and answer with the success payload. -/
def create_property (db : DB) (st : FileStore) (new_name : String) (data : PropData) :
    ApiResult × DB × FileStore :=
  let doc0 : Property :=
    { name := new_name, title := data.title, location := data.location,
      price_tzs := data.price_tzs, bedrooms := data.bedrooms, bathroom := data.bathroom,
      status := data.status, description := data.description,
      square_meters := data.square_meters,
      image := "", image_1 := "", image_2 := "", image_3 := "", image_4 := "" }
  let db1 := { db with properties := db.properties ++ [doc0] }
  let q := create_image_loop image_fields data doc0 st
  let db2 := save_property db1 q.1
  (.ok ("Property '" ++ str_of_title q.1.title ++ "' created successfully.") q.1.name,
    db2, q.2.1)

/-- `update_property(name, data)`: load the stored document (the distinct
not-found payload when it is missing), apply the allowlisted scalar fields
present in the payload, run the update image loop, save, and answer with
the success payload. -/
def update_property (db : DB) (st : FileStore) (nm : String) (data : PropData) :
    ApiResult × DB × FileStore :=
  match find_property db nm with
  | none => (.err ("Property with name '" ++ nm ++ "' does not exist."), db, st)
  | some doc0 =>
      let doc1 := set_updateable_fields doc0 data
      let q := update_image_loop image_fields data doc1 st
      let db2 := save_property db q.1
      (.ok ("Property '" ++ str_of_title q.1.title ++ "' updated successfully.") q.1.name,
        db2, q.2.1)

/-! ## Dashboard (`get_users_with_roles`) -/

/-- One entry of the `get_users_with_roles` response; `none` on an optional
field models an absent key / SQL NULL. -/
structure UserInfo where
  name : String
  email : String
  full_name : String
  user_image : String
  phone : String
  roles : List String
  assigned_property : Option String
  property_name : Option String
  lease_start : Option String
  lease_end : Option String
  monthly_rent : Option Rat
  rental_status : String
deriving DecidableEq

/-- The row produced by the per-tenant rental query (rental columns plus
the LEFT JOINed property title). -/
structure RentalRow where
  name : String
  property : String
  start_date : String
  end_date : String
  monthly_rent : Rat
  property_name : Option String
deriving DecidableEq

/-- `SELECT role FROM tabHas Role WHERE parent = uname`. -/
def rolesOf (db : DB) (uname : String) : List String :=
  (db.has_roles.filter (fun hr => hr.parent == uname)).map (fun hr => hr.role)

/-- `... WHERE r.tenant = uname AND r.status = 'Active' ORDER BY r.creation
DESC LIMIT 1`: the matching rental of maximal creation timestamp. -/
def latest_active_rental (rentals : List Rental) (uname : String) : Option Rental :=
  (rentals.filter (fun r => r.tenant == uname && r.status == "Active")).foldl
    (fun acc r =>
      match acc with
      | none => some r
      | some b => if b.creation < r.creation then some r else acc) none

/-- The per-tenant rental query with its `LEFT JOIN tabProperty` giving
`property_name` (NULL when the property row is missing or its title is). -/
def active_rental_row (db : DB) (uname : String) : Option RentalRow :=
  (latest_active_rental db.rentals uname).map (fun r =>
    { name := r.name, property := r.property, start_date := r.start_date,
      end_date := r.end_date, monthly_rent := r.monthly_rent,
      property_name := (db.properties.find? (fun q => q.name == r.property)).bind
        (fun q => q.title) })

/-- Insertion step for `ORDER BY u.full_name` (ascending). -/
def insert_by_name (u : User) : List User → List User
  | [] => [u]
  | v :: l => if u.full_name ≤ v.full_name then u :: v :: l else v :: insert_by_name u l

/-- `ORDER BY u.full_name`: insertion sort on the full name. -/
def order_by_full_name : List User → List User
  | [] => []
  | u :: l => insert_by_name u (order_by_full_name l)

/-- The opening query: distinct enabled users holding at least one of the
two dashboard roles, ordered by full name. -/
def select_dashboard_users (db : DB) : List User :=
  order_by_full_name
    ((db.users.filter (fun u => u.enabled && db.has_roles.any (fun hr =>
        hr.parent == u.name && (hr.role == "Tenants" || hr.role == "System Manager")))).dedup)

/-- The response entry before any rental information is attached; the
optional fields model keys the source never sets on the non-tenant paths. -/
def base_user_info (u : User) (roles : List String) : UserInfo :=
  { name := u.name, email := u.email, full_name := u.full_name,
    user_image := u.user_image, phone := u.phone, roles := roles,
    assigned_property := none, property_name := none, lease_start := none,
    lease_end := none, monthly_rent := none, rental_status := "N/A" }

/-- The entry for a tenant with an active rental. -/
def tenant_active_info (u : User) (roles : List String) (ri : RentalRow) : UserInfo :=
  { base_user_info u roles with
    assigned_property := some ri.property, property_name := ri.property_name,
    lease_start := some ri.start_date, lease_end := some ri.end_date,
    monthly_rent := some ri.monthly_rent, rental_status := "Active" }

/-- The entry for a tenant with no active rental. -/
def tenant_inactive_info (u : User) (roles : List String) : UserInfo :=
  { base_user_info u roles with rental_status := "Inactive" }

/-- The rental-attachment branch of the dashboard body for one user. -/
def build_user_info (db : DB) (u : User) (roles : List String) : UserInfo :=
  if "Tenants" ∈ roles then
    match active_rental_row db u.name with
    | some ri => tenant_active_info u roles ri
    | none => tenant_inactive_info u roles
  else base_user_info u roles

/-- The environment a dashboard request runs against: the store plus a
schedule of which backing-store query (counted from 0) raises which
exception (`none` = that query succeeds). -/
structure QEnv where
  db : DB
  raises : Nat → Option String

/-- A computation against the backing store: threads the query counter and
may end in an exception. -/
def QM (α : Type) : Type := Nat → Except String (α × Nat)

/-- Return for `QM`. -/
def qpure (a : α) : QM α := fun k => .ok (a, k)

/-- Sequencing for `QM`: an exception aborts the rest of the body. -/
def qbind (x : QM α) (f : α → QM β) : QM β := fun k =>
  match x k with
  | .error e => .error e
  | .ok (a, k') => f a k'

/-- One backing-store query: raises according to the environment's
schedule, otherwise yields its result and advances the counter. -/
def runQuery (env : QEnv) (res : α) : QM α := fun k =>
  match env.raises k with
  | some e => .error e
  | none => .ok (res, k + 1)

/-- Run a query-performing body over each element of a list, in order. -/
def forEachQ (f : α → QM β) : List α → QM (List β)
  | [] => qpure []
  | a :: l => qbind (f a) (fun b => qbind (forEachQ f l) (fun bs => qpure (b :: bs)))

/-- One iteration of the first loop: query the user's roles and pair them
with the user. -/
def roles_step (env : QEnv) (u : User) : QM (User × List String) :=
  qbind (runQuery env (rolesOf env.db u.name)) (fun rs => qpure (u, rs))

/-- One iteration of the second loop: for a tenant, query the latest active
rental and attach it; other users get the "N/A" entry without a query. -/
def rental_step (env : QEnv) (ur : User × List String) : QM UserInfo :=
  if "Tenants" ∈ ur.2 then
    qbind (runQuery env (active_rental_row env.db ur.1.name)) (fun r? =>
      match r? with
      | some ri => qpure (tenant_active_info ur.1 ur.2 ri)
      | none => qpure (tenant_inactive_info ur.1 ur.2))
  else qpure (base_user_info ur.1 ur.2)

/-- The `try` block of `get_users_with_roles`: the opening user query, a
first loop attaching each user's roles, and a second loop attaching rental
information to tenants (one further query per tenant). -/
def get_users_with_roles_try (env : QEnv) : QM (List UserInfo) :=
  qbind (runQuery env (select_dashboard_users env.db)) (fun users =>
    qbind (forEachQ (roles_step env) users)
      (fun usersRoles => forEachQ (rental_step env) usersRoles))

/-- `get_users_with_roles`: run the try block from query 0; any exception
is swallowed into the empty list, its message kept only in the server-side
log (the second component). -/
def get_users_with_roles (env : QEnv) : List UserInfo × Option String :=
  match get_users_with_roles_try env 0 with
  | .ok (l, _) => (l, none)
  | .error e => ([], some ("Error in get_users_with_roles: " ++ e))

/-- The exception-free denotation of the dashboard body. -/
def get_users_with_roles_noexc (db : DB) : List UserInfo :=
  (select_dashboard_users db).map (fun u => build_user_info db u (rolesOf db u.name))

/-! ## Active-property counter (`get_active_properties_count`) -/

/-- The response payload of `get_active_properties_count`. -/
structure CountResult where
  message : Option String
  error : Option String
  tenant : String
  active_properties_count : Nat
deriving DecidableEq

/-- `get_active_properties_count(tenant)`: `frappe.get_all("Rental", ...)`
with `distinct=True` over the single selected column `property` yields the
distinct property values of the tenant's active rentals; the count is their
number. -/
def get_active_properties_count (db : DB) (tenant : String) : CountResult :=
  let rentals :=
    ((db.rentals.filter (fun r => r.tenant == tenant && r.status == "Active")).map
      (fun r => r.property)).dedup
  { message := some "Active properties count fetched successfully.", error := none,
    tenant := tenant, active_properties_count := rentals.length }

/-! ## Helper lemmas: payments -/

/-- `get_total_rent_paid_all` is the sum of `amount_tzs` over the confirmed
rows: the zero-vs-NULL collapse in the source never changes the value. -/
theorem get_total_rent_paid_all_eq (table : List Payment) :
    get_total_rent_paid_all table =
      ((table.filter (fun p => p.docstatus == 1)).map (fun p => p.amount_tzs)).sum := by
  unfold get_total_rent_paid_all sum_amount_where
  by_cases h : (table.filter (fun p => p.docstatus == 1)).isEmpty
  · simp only [h, if_true]
    rw [List.isEmpty_iff] at h
    simp [h]
  · simp only [h, if_false]
    split <;> simp_all

/-- `get_pending_rent` is the sum of `amount_tzs` over the pending rows. -/
theorem get_pending_rent_eq (table : List Payment) :
    get_pending_rent table =
      ((table.filter (fun p => p.docstatus == 0)).map (fun p => p.amount_tzs)).sum := by
  unfold get_pending_rent sum_amount_where
  by_cases h : (table.filter (fun p => p.docstatus == 0)).isEmpty
  · simp only [h, if_true]
    rw [List.isEmpty_iff] at h
    simp [h]
  · simp only [h, if_false]
    split <;> simp_all

/-- When every row's status flag is 0 or 1, the two status filters
partition the table's amounts. -/
theorem sum_filter_status_partition (table : List Payment)
    (h : ∀ p ∈ table, p.docstatus = 0 ∨ p.docstatus = 1) :
    ((table.filter (fun p => p.docstatus == 1)).map (fun p => p.amount_tzs)).sum
      + ((table.filter (fun p => p.docstatus == 0)).map (fun p => p.amount_tzs)).sum
      = (table.map (fun p => p.amount_tzs)).sum := by
  induction table with
  | nil => simp
  | cons a t ih =>
    have ht : ∀ p ∈ t, p.docstatus = 0 ∨ p.docstatus = 1 :=
      fun p hp => h p (List.mem_cons_of_mem _ hp)
    rcases h a (List.mem_cons_self _ _) with h0 | h1
    · simp only [List.filter_cons, h0, List.map_cons, List.sum_cons]
      norm_num
      rw [← ih ht]; ring
    · simp only [List.filter_cons, h1, List.map_cons, List.sum_cons]
      norm_num
      rw [← ih ht]; ring

/-! ## Claims C3 and C8 -/

/-- Claim C3: for every payment table in which the submission-status flag of
every row is either 0 (pending) or 1 (confirmed), `total_paid()` plus
`total_pending()` equals the sum of the amount column over all rows. -/
theorem claim_C3 (table : List Payment)
    (h : ∀ p ∈ table, p.docstatus = 0 ∨ p.docstatus = 1) :
    get_total_rent_paid_all table + get_pending_rent table
      = (table.map (fun p => p.amount_tzs)).sum := by
  rw [get_total_rent_paid_all_eq, get_pending_rent_eq]
  exact sum_filter_status_partition table h

/-- Witness for claim C3 on a concrete two-row table. -/
theorem claim_C3_witness :
    get_total_rent_paid_all
        [⟨"PAY-1", "R-1", 5, "2024-01-01", "Cash", 1, "2024-02-01"⟩,
         ⟨"PAY-2", "R-1", 3, "2024-01-05", "Cash", 0, "2024-02-05"⟩]
      + get_pending_rent
        [⟨"PAY-1", "R-1", 5, "2024-01-01", "Cash", 1, "2024-02-01"⟩,
         ⟨"PAY-2", "R-1", 3, "2024-01-05", "Cash", 0, "2024-02-05"⟩]
      = (([⟨"PAY-1", "R-1", 5, "2024-01-01", "Cash", 1, "2024-02-01"⟩,
           ⟨"PAY-2", "R-1", 3, "2024-01-05", "Cash", 0, "2024-02-05"⟩] : List Payment).map
            (fun p => p.amount_tzs)).sum :=
  claim_C3 _ (by decide)

/-- Claim C8: on an empty payment table, and more generally whenever no row
matches the status filter, `total_paid()` and `total_pending()` each return
exactly 0 (the functions are total with numeric result type: no null value
can be returned). -/
theorem claim_C8 :
    get_total_rent_paid_all [] = 0 ∧ get_pending_rent [] = 0
      ∧ (∀ table : List Payment,
          table.filter (fun p => p.docstatus == 1) = [] → get_total_rent_paid_all table = 0)
      ∧ (∀ table : List Payment,
          table.filter (fun p => p.docstatus == 0) = [] → get_pending_rent table = 0) := by
  refine ⟨rfl, rfl, ?_, ?_⟩
  · intro table h
    rw [get_total_rent_paid_all_eq, h]
    rfl
  · intro table h
    rw [get_pending_rent_eq, h]
    rfl

/-- Witness for claim C8: a table whose single row is pending has no
confirmed rows, so the paid total is 0. -/
theorem claim_C8_witness :
    get_total_rent_paid_all
      [⟨"PAY-1", "R-1", 7, "2024-01-01", "Cash", 0, "2024-02-01"⟩] = 0 :=
  claim_C8.2.2.1 [⟨"PAY-1", "R-1", 7, "2024-01-01", "Cash", 0, "2024-02-01"⟩] rfl

/-! ## Helper lemmas: role seeding -/

/-- A store contains a role of a given name iff the matching count is
positive. -/
theorem role_exists_iff_countP_pos (st : List Role) (nm : String) :
    role_exists st nm = true ↔ 0 < st.countP (fun r => r.role_name == nm) := by
  rw [role_exists, List.any_eq_true, List.countP_pos_iff]

/-- Appending rows adds their matching counts. -/
theorem countP_append_role (l l' : List Role) (q : Role → Bool) :
    (l ++ l').countP q = l.countP q + l'.countP q :=
  List.countP_append q l l'


/-- A role store with no matching row has matching count 0. -/
theorem countP_eq_zero_of_not_exists (st : List Role) (nm : String)
    (h : ¬ role_exists st nm = true) :
    st.countP (fun r => r.role_name == nm) = 0 := by
  by_contra hne
  exact h ((role_exists_iff_countP_pos st nm).mpr (Nat.pos_of_ne_zero hne))

/-- Existence distributes over append. -/
theorem role_exists_append (l l' : List Role) (nm : String) :
    role_exists (l ++ l') nm = (role_exists l nm || role_exists l' nm) := by
  simp [role_exists, List.any_append]

/-- Appending the "Landlord" record does not affect the "Tenant" check. -/
theorem role_exists_tenant_append_landlord (st : List Role) :
    role_exists (st ++ [landlord_role]) "Tenant" = role_exists st "Tenant" := by
  rw [role_exists_append]
  simp [role_exists, landlord_role]

/-- Case characterization of the patch: each of the four existence
combinations determines which records get appended. -/
theorem execute_eq_cases (st : List Role) :
    create_landlord_tenant_roles.execute st =
      if role_exists st "Landlord" = true then
        (if role_exists st "Tenant" = true then st else st ++ [tenant_role])
      else
        (if role_exists st "Tenant" = true then st ++ [landlord_role]
         else st ++ [landlord_role, tenant_role]) := by
  by_cases hb : role_exists st "Landlord" = true
  · simp [create_landlord_tenant_roles.execute, hb]
  · have hb' : role_exists st "Landlord" = false := by
      cases h : role_exists st "Landlord"
      · rfl
      · exact absurd h hb
    rw [if_neg hb]
    simp only [create_landlord_tenant_roles.execute, hb', Bool.false_eq_true, if_false]
    rw [role_exists_tenant_append_landlord]
    by_cases ht : role_exists st "Tenant" = true
    · rw [if_pos ht, if_pos ht]
    · rw [if_neg ht, if_neg ht, List.append_assoc]
      rfl

/-- After the patch runs once, exactly one "Landlord" role exists, provided
the store (keyed by role name) held at most one before. -/
theorem countP_exec_landlord (st : List Role)
    (h : st.countP (fun r => r.role_name == "Landlord") ≤ 1) :
    (create_landlord_tenant_roles.execute st).countP
      (fun r => r.role_name == "Landlord") = 1 := by
  have hten : List.countP (fun r => r.role_name == "Landlord") [tenant_role] = 0 := by decide
  have hland : List.countP (fun r => r.role_name == "Landlord") [landlord_role] = 1 := by
    decide
  have hboth :
      List.countP (fun r => r.role_name == "Landlord") [landlord_role, tenant_role] = 1 := by
    decide
  rw [execute_eq_cases]
  by_cases hb : role_exists st "Landlord" = true
  · have h1 : 0 < st.countP (fun r => r.role_name == "Landlord") :=
      (role_exists_iff_countP_pos st "Landlord").mp hb
    have heq : st.countP (fun r => r.role_name == "Landlord") = 1 := le_antisymm h h1
    rw [if_pos hb]
    by_cases ht : role_exists st "Tenant" = true
    · rw [if_pos ht]; exact heq
    · rw [if_neg ht, List.countP_append, hten, heq]
  · have h0 : st.countP (fun r => r.role_name == "Landlord") = 0 :=
      countP_eq_zero_of_not_exists st "Landlord" hb
    rw [if_neg hb]
    by_cases ht : role_exists st "Tenant" = true
    · rw [if_pos ht, List.countP_append, hland, h0]
    · rw [if_neg ht, List.countP_append, hboth, h0]

/-- After the patch runs once, exactly one "Tenant" role exists, provided
the store held at most one before. -/
theorem countP_exec_tenant (st : List Role)
    (h : st.countP (fun r => r.role_name == "Tenant") ≤ 1) :
    (create_landlord_tenant_roles.execute st).countP
      (fun r => r.role_name == "Tenant") = 1 := by
  have hland : List.countP (fun r => r.role_name == "Tenant") [landlord_role] = 0 := by decide
  have hten : List.countP (fun r => r.role_name == "Tenant") [tenant_role] = 1 := by decide
  have hboth :
      List.countP (fun r => r.role_name == "Tenant") [landlord_role, tenant_role] = 1 := by
    decide
  rw [execute_eq_cases]
  by_cases ht : role_exists st "Tenant" = true
  · have h1 : 0 < st.countP (fun r => r.role_name == "Tenant") :=
      (role_exists_iff_countP_pos st "Tenant").mp ht
    have heq : st.countP (fun r => r.role_name == "Tenant") = 1 := le_antisymm h h1
    by_cases hb : role_exists st "Landlord" = true
    · rw [if_pos hb, if_pos ht]; exact heq
    · rw [if_neg hb, if_pos ht, List.countP_append, hland, heq]
  · have h0 : st.countP (fun r => r.role_name == "Tenant") = 0 :=
      countP_eq_zero_of_not_exists st "Tenant" ht
    by_cases hb : role_exists st "Landlord" = true
    · rw [if_pos hb, if_neg ht, List.countP_append, hten, h0]
    · rw [if_neg hb, if_neg ht, List.countP_append, hboth, h0]

/-- If both roles already exist, the patch is a no-op. -/
theorem exec_of_exists (st : List Role)
    (hL : role_exists st "Landlord" = true) (hT : role_exists st "Tenant" = true) :
    create_landlord_tenant_roles.execute st = st := by
  rw [execute_eq_cases, if_pos hL, if_pos hT]

/-- The "Landlord" role exists after the patch has run. -/
theorem role_exists_exec_landlord (st : List Role) :
    role_exists (create_landlord_tenant_roles.execute st) "Landlord" = true := by
  have h1 : role_exists [landlord_role] "Landlord" = true := by decide
  have h2 : role_exists [landlord_role, tenant_role] "Landlord" = true := by decide
  rw [execute_eq_cases]
  by_cases hb : role_exists st "Landlord" = true
  · rw [if_pos hb]
    by_cases ht : role_exists st "Tenant" = true
    · rw [if_pos ht]; exact hb
    · rw [if_neg ht, role_exists_append, hb, Bool.true_or]
  · rw [if_neg hb]
    by_cases ht : role_exists st "Tenant" = true
    · rw [if_pos ht, role_exists_append, h1, Bool.or_true]
    · rw [if_neg ht, role_exists_append, h2, Bool.or_true]

/-- The "Tenant" role exists after the patch has run. -/
theorem role_exists_exec_tenant (st : List Role) :
    role_exists (create_landlord_tenant_roles.execute st) "Tenant" = true := by
  have h1 : role_exists [tenant_role] "Tenant" = true := by decide
  have h2 : role_exists [landlord_role, tenant_role] "Tenant" = true := by decide
  rw [execute_eq_cases]
  by_cases ht : role_exists st "Tenant" = true
  · by_cases hb : role_exists st "Landlord" = true
    · rw [if_pos hb, if_pos ht]; exact ht
    · rw [if_neg hb, if_pos ht, role_exists_append, ht, Bool.true_or]
  · by_cases hb : role_exists st "Landlord" = true
    · rw [if_pos hb, if_neg ht, role_exists_append, h1, Bool.or_true]
    · rw [if_neg hb, if_neg ht, role_exists_append, h2, Bool.or_true]


/-! ## Claim C4 -/

/-- Claim C4: role seeding is idempotent.  For every store state satisfying
the role table's primary-key invariant (at most one row per role name),
running the patch twice leaves exactly one "Landlord" and exactly one
"Tenant" role, the second run changes nothing, and a run on a store already
holding both roles is a no-op (the model is total: no error is raised). -/
theorem claim_C4 (st : List Role)
    (hL : st.countP (fun r => r.role_name == "Landlord") ≤ 1)
    (hT : st.countP (fun r => r.role_name == "Tenant") ≤ 1) :
    (create_landlord_tenant_roles.execute
        (create_landlord_tenant_roles.execute st)).countP
      (fun r => r.role_name == "Landlord") = 1
    ∧ (create_landlord_tenant_roles.execute
        (create_landlord_tenant_roles.execute st)).countP
      (fun r => r.role_name == "Tenant") = 1
    ∧ create_landlord_tenant_roles.execute (create_landlord_tenant_roles.execute st)
        = create_landlord_tenant_roles.execute st
    ∧ (role_exists st "Landlord" = true → role_exists st "Tenant" = true →
        create_landlord_tenant_roles.execute st = st) := by
  have hidem : create_landlord_tenant_roles.execute (create_landlord_tenant_roles.execute st)
      = create_landlord_tenant_roles.execute st :=
    exec_of_exists _ (role_exists_exec_landlord st) (role_exists_exec_tenant st)
  refine ⟨?_, ?_, hidem, exec_of_exists st⟩
  · rw [hidem]; exact countP_exec_landlord st hL
  · rw [hidem]; exact countP_exec_tenant st hT

/-- Witness for claim C4: seeding twice from a store already holding a
"Landlord" role yields exactly one of each role. -/
theorem claim_C4_witness :
    (create_landlord_tenant_roles.execute
        (create_landlord_tenant_roles.execute [⟨"Landlord", 1, 1⟩])).countP
      (fun r => r.role_name == "Landlord") = 1
    ∧ (create_landlord_tenant_roles.execute
        (create_landlord_tenant_roles.execute [⟨"Landlord", 1, 1⟩])).countP
      (fun r => r.role_name == "Tenant") = 1 :=
  ⟨(claim_C4 [⟨"Landlord", 1, 1⟩] (by decide) (by decide)).1,
   (claim_C4 [⟨"Landlord", 1, 1⟩] (by decide) (by decide)).2.1⟩

/-! ## Helper lemmas: image handling -/

/-- The reference component of `handle_image_upload` does not depend on the
file-store state or on the owning document/field: it is `resolve_ref` of
the payload value. -/
theorem handle_image_upload_fst (doc : Property) (fn : String) (v : ImgValue)
    (st : FileStore) :
    (handle_image_upload doc fn v st).1 = resolve_ref v := by
  cases v with
  | null => rfl
  | str s =>
    by_cases hs : s = ""
    · subst hs; rfl
    · by_cases hp : (s.startsWith "/files/" || s.startsWith "/private/files/") = true
      · simp [handle_image_upload, resolve_ref, ImgValue.truthy, hs, hp]
      · simp [handle_image_upload, resolve_ref, ImgValue.truthy, hs, hp]
  | dict d =>
    by_cases hd : d = []
    · subst hd; rfl
    · cases hf : d.lookup "filename" with
      | none => simp [handle_image_upload, resolve_ref, ImgValue.truthy, hd, hf]
      | some f =>
        cases hc : d.lookup "content" with
        | none => simp [handle_image_upload, resolve_ref, ImgValue.truthy, hd, hf, hc]
        | some c =>
          by_cases hfc : (f != "" && c != "") = true
          · simp [handle_image_upload, resolve_ref, ImgValue.truthy, hd, hf, hc, hfc,
              save_file]
          · simp [handle_image_upload, resolve_ref, ImgValue.truthy, hd, hf, hc, hfc,
              save_file]

/-! ## Claim C1 -/

/-- Claim C1: `handle_image_upload` behaves by case on the payload value:
a falsy (empty/absent) value yields nothing and leaves the store unchanged;
a string beginning with "/files/" or "/private/files/" is returned
unchanged; any other string yields nothing; a structured payload whose
filename or content is missing/empty yields nothing; a structured payload
with both yields the canonical reference of a file newly added to the
store. -/
theorem claim_C1 (doc : Property) (fn : String) (v : ImgValue) (st : FileStore) :
    (v.truthy = false → handle_image_upload doc fn v st = (none, st))
    ∧ (∀ s : String, v = .str s →
        (s.startsWith "/files/" || s.startsWith "/private/files/") = true →
        handle_image_upload doc fn v st = (some s, st))
    ∧ (∀ s : String, v = .str s →
        (s.startsWith "/files/" || s.startsWith "/private/files/") = false →
        handle_image_upload doc fn v st = (none, st))
    ∧ (∀ d : List (String × String), v = .dict d →
        (∀ f c, d.lookup "filename" = some f → d.lookup "content" = some c →
          (f != "" && c != "") = false) →
        handle_image_upload doc fn v st = (none, st))
    ∧ (∀ (d : List (String × String)) (f c : String), v = .dict d →
        d.lookup "filename" = some f → d.lookup "content" = some c →
        f ≠ "" → c ≠ "" →
        handle_image_upload doc fn v st =
          (some (file_url_of f), { files := ⟨f, c, doc.name⟩ :: st.files })) := by
  refine ⟨?_, ?_, ?_, ?_, ?_⟩
  · intro hf
    unfold handle_image_upload
    rw [hf]
    cases v <;> rfl
  · rintro s rfl hpre
    have hs : s ≠ "" := by
      rintro rfl
      exact absurd hpre (by decide)
    simp [handle_image_upload, ImgValue.truthy, hs, hpre]
  · rintro s rfl hpre
    by_cases hs : s = ""
    · subst hs; rfl
    · simp [handle_image_upload, ImgValue.truthy, hs, hpre]
  · rintro d rfl hmiss
    by_cases hd : d = []
    · subst hd; rfl
    · cases hf : d.lookup "filename" with
      | none => simp [handle_image_upload, ImgValue.truthy, hd, hf]
      | some f =>
        cases hc : d.lookup "content" with
        | none => simp [handle_image_upload, ImgValue.truthy, hd, hf, hc]
        | some c =>
          have h4 := hmiss f c hf hc
          simp only [Bool.and_eq_false_iff, bne_eq_false_iff_eq] at h4
          simp [handle_image_upload, ImgValue.truthy, hd, hf, hc]
          intro hfne
          rcases h4 with h4 | h4
          · exact absurd h4 hfne
          · exact h4
  · rintro d f c rfl hf hc hfne hcne
    have hd : d ≠ [] := by
      rintro rfl
      simp [List.lookup] at hf
    simp [handle_image_upload, ImgValue.truthy, hd, hf, hc, hfne, hcne, save_file]

/-- Witness for claim C1: a structured payload with filename and content
stores a new file and returns its canonical reference. -/
theorem claim_C1_witness :
    handle_image_upload
        { name := "PROP-1", title := some "Flat", location := none, price_tzs := none,
          bedrooms := none, bathroom := none, square_meters := none, description := none,
          status := none, image := "", image_1 := "", image_2 := "", image_3 := "",
          image_4 := "" }
        "image" (.dict [("filename", "a.png"), ("content", "xyz")]) ⟨[]⟩
      = (some (file_url_of "a.png"), { files := [⟨"a.png", "xyz", "PROP-1"⟩] }) :=
  (claim_C1 _ "image" _ _).2.2.2.2 [("filename", "a.png"), ("content", "xyz")] "a.png" "xyz"
    rfl rfl rfl (by decide) (by decide)

/-! ## Helper lemmas: the image loops' call traces -/

/-- The update loop invokes `handle_image_upload` exactly on the slots
whose key is present in the payload. -/
theorem update_image_loop_trace (fields : List String) (data : PropData) :
    ∀ (doc : Property) (st : FileStore),
      (update_image_loop fields data doc st).2.2 =
        fields.filter (fun f => (data.getImage f).isSome) := by
  induction fields with
  | nil => intro doc st; rfl
  | cons f rest ih =>
    intro doc st
    cases hv : data.getImage f with
    | none => simp [update_image_loop, hv, List.filter_cons, ih]
    | some v => simp [update_image_loop, hv, List.filter_cons, ih]

/-- The create loop invokes `handle_image_upload` exactly on the slots
whose key is present in the payload with a truthy value. -/
theorem create_image_loop_trace (fields : List String) (data : PropData) :
    ∀ (doc : Property) (st : FileStore),
      (create_image_loop fields data doc st).2.2 =
        fields.filter (fun f => create_attempted data f) := by
  induction fields with
  | nil => intro doc st; rfl
  | cons f rest ih =>
    intro doc st
    cases hv : data.getImage f with
    | none => simp [create_image_loop, hv, List.filter_cons, ih, create_attempted]
    | some v =>
      cases ht : v.truthy with
      | true => simp [create_image_loop, hv, ht, List.filter_cons, ih, create_attempted]
      | false => simp [create_image_loop, hv, ht, List.filter_cons, ih, create_attempted]

/-! ## Claim C2 -/

/-- Claim C2: `update_property`'s image loop attempts resolution for a slot
whenever its key is present in the payload, regardless of the value's
truthiness, while `create_property`'s image loop attempts it only when the
key is present and its value truthy; in particular a slot key mapped to an
empty (falsy) value is processed by the update loop and skipped entirely by
the create loop. -/
theorem claim_C2 (data : PropData) (docU docC : Property) (stU stC : FileStore)
    (f : String) (hf : f ∈ image_fields) :
    (f ∈ (update_image_loop image_fields data docU stU).2.2
        ↔ (data.getImage f).isSome = true)
    ∧ (f ∈ (create_image_loop image_fields data docC stC).2.2
        ↔ ∃ v, data.getImage f = some v ∧ v.truthy = true)
    ∧ (∀ v, data.getImage f = some v → v.truthy = false →
        f ∈ (update_image_loop image_fields data docU stU).2.2
          ∧ f ∉ (create_image_loop image_fields data docC stC).2.2) := by
  have hu := update_image_loop_trace image_fields data docU stU
  have hc := create_image_loop_trace image_fields data docC stC
  refine ⟨?_, ?_, ?_⟩
  · rw [hu, List.mem_filter]
    exact ⟨fun h => h.2, fun h => ⟨hf, h⟩⟩
  · rw [hc, List.mem_filter]
    constructor
    · rintro ⟨-, h⟩
      unfold create_attempted at h
      cases hv : data.getImage f with
      | none => rw [hv] at h; exact absurd h (by simp)
      | some v => rw [hv] at h; exact ⟨v, rfl, h⟩
    · rintro ⟨v, hv, ht⟩
      refine ⟨hf, ?_⟩
      unfold create_attempted
      rw [hv]
      exact ht
  · intro v hv ht
    constructor
    · rw [hu, List.mem_filter]
      exact ⟨hf, by simp [hv]⟩
    · rw [hc, List.mem_filter]
      rintro ⟨-, h⟩
      unfold create_attempted at h
      rw [hv] at h
      simp [ht] at h

/-- Witness for claim C2: the "image" slot mapped to the empty string is
processed by the update loop and skipped by the create loop. -/
theorem claim_C2_witness :
    "image" ∈ (update_image_loop image_fields
        { title := none, location := none, price_tzs := none, bedrooms := none,
          bathroom := none, square_meters := none, description := none, status := none,
          image := some (.str ""), image_1 := none, image_2 := none, image_3 := none,
          image_4 := none }
        { name := "PROP-1", title := none, location := none, price_tzs := none,
          bedrooms := none, bathroom := none, square_meters := none, description := none,
          status := none, image := "", image_1 := "", image_2 := "", image_3 := "",
          image_4 := "" } ⟨[]⟩).2.2
    ∧ "image" ∉ (create_image_loop image_fields
        { title := none, location := none, price_tzs := none, bedrooms := none,
          bathroom := none, square_meters := none, description := none, status := none,
          image := some (.str ""), image_1 := none, image_2 := none, image_3 := none,
          image_4 := none }
        { name := "PROP-1", title := none, location := none, price_tzs := none,
          bedrooms := none, bathroom := none, square_meters := none, description := none,
          status := none, image := "", image_1 := "", image_2 := "", image_3 := "",
          image_4 := "" } ⟨[]⟩).2.2 :=
  (claim_C2 _ _ _ _ _ "image" (by decide)).2.2 (.str "") rfl rfl

/-! ## Claim C7 -/

/-- The not-found message can never coincide with the generic update error
message, whatever gets interpolated: their first characters differ. -/
theorem update_not_found_message_ne_generic (nm s : String) :
    "Property with name '" ++ nm ++ "' does not exist."
      ≠ "An error occurred while updating the property: " ++ s := by
  intro h
  have h1 : ("Property with name '" ++ nm ++ "' does not exist.").data.head? = some 'P' := rfl
  rw [h] at h1
  have h2 : ("An error occurred while updating the property: " ++ s).data.head?
      = some 'A' := rfl
  rw [h2] at h1
  exact absurd h1 (by decide)

/-- Claim C7: when no property named `nm` exists, `update_property` returns
exactly the interpolated not-found payload, which is never the generic
exception-message payload used for other failures. -/
theorem claim_C7 (db : DB) (st : FileStore) (nm : String) (data : PropData)
    (h : ∀ p ∈ db.properties, p.name ≠ nm) :
    (update_property db st nm data).1
        = .err ("Property with name '" ++ nm ++ "' does not exist.")
    ∧ ∀ s, (update_property db st nm data).1
        ≠ .err ("An error occurred while updating the property: " ++ s) := by
  have hfind : find_property db nm = none := by
    rw [find_property, List.find?_eq_none]
    intro p hp
    simp [h p hp]
  have h1 : (update_property db st nm data).1
      = .err ("Property with name '" ++ nm ++ "' does not exist.") := by
    simp [update_property, hfind]
  refine ⟨h1, ?_⟩
  intro s hs
  rw [h1] at hs
  exact update_not_found_message_ne_generic nm s (ApiResult.err.inj hs)

/-- Witness for claim C7 on an empty property table. -/
theorem claim_C7_witness :
    (update_property ⟨[], [], [], []⟩ ⟨[]⟩ "PROP-404"
        ⟨none, none, none, none, none, none, none, none, none, none, none, none, none⟩).1
      = .err ("Property with name 'PROP-404' does not exist.") :=
  (claim_C7 ⟨[], [], [], []⟩ ⟨[]⟩ "PROP-404"
    ⟨none, none, none, none, none, none, none, none, none, none, none, none, none⟩
    (by simp)).1

/-! ## Helper lemmas: image slots of the updated document -/

/-- Setting an image slot (one of the five real slots) makes that slot read
back the written value. -/
theorem getImageField_setImage_self (p : Property) (f : String) (u : String)
    (hf : f ∈ image_fields) :
    (p.setImage f u).getImageField f = u := by
  fin_cases hf <;> simp [Property.setImage, Property.getImageField]

/-- Setting one slot leaves every other field name unchanged. -/
theorem getImageField_setImage_ne (p : Property) (f g : String) (u : String)
    (hne : f ≠ g) :
    (p.setImage g u).getImageField f = p.getImageField f := by
  unfold Property.setImage
  split_ifs with h1 h2 h3 h4 h5
  all_goals unfold Property.getImageField
  all_goals split_ifs <;> simp_all

/-- Setting an image slot never changes the document name. -/
theorem setImage_name (p : Property) (f u : String) : (p.setImage f u).name = p.name := by
  unfold Property.setImage
  split_ifs <;> rfl

/-- The scalar-field update leaves every image slot unchanged. -/
theorem set_updateable_fields_getImageField (doc : Property) (data : PropData)
    (f : String) :
    (set_updateable_fields doc data).getImageField f = doc.getImageField f := by
  unfold Property.getImageField set_updateable_fields
  split_ifs <;> rfl

/-- The update image loop never changes the document name. -/
theorem update_image_loop_name (fields : List String) (data : PropData) :
    ∀ (doc : Property) (st : FileStore),
      ((update_image_loop fields data doc st).1).name = doc.name := by
  induction fields with
  | nil => intro doc st; rfl
  | cons g rest ih =>
    intro doc st
    cases hv : data.getImage g with
    | none => simp [update_image_loop, hv, ih]
    | some v =>
      simp only [update_image_loop, hv]
      cases hr : (handle_image_upload doc g v st).1 with
      | none => simp [hr, ih]
      | some u =>
        by_cases hu : u = ""
        · simp [hr, hu, ih]
        · simp [hr, hu, ih, setImage_name]

/-- The value an image slot of the update payload resolves to, applied to a
document: a slot whose key is absent, or whose value resolves to no truthy
reference, keeps the document's stored value; otherwise the slot becomes
the resolved reference. -/
def upd_field_result (data : PropData) (doc : Property) (f : String) : String :=
  match data.getImage f with
  | none => doc.getImageField f
  | some v =>
      match resolve_ref v with
      | some u => if u != "" then u else doc.getImageField f
      | none => doc.getImageField f

/-- `upd_field_result` only inspects the document through the slot being
read. -/
theorem upd_field_result_congr (data : PropData) (doc doc' : Property) (f : String)
    (h : doc'.getImageField f = doc.getImageField f) :
    upd_field_result data doc' f = upd_field_result data doc f := by
  unfold upd_field_result
  cases hv : data.getImage f with
  | none => simp [h]
  | some v =>
    cases hr : resolve_ref v with
    | none => simp [hr, h]
    | some u => simp [hr, h]

/-- The slot-by-slot effect of the update image loop on a document: over a
duplicate-free field list contained in the real image slots, each listed
slot ends at its `upd_field_result` and every other name is untouched. -/
theorem update_image_loop_getImageField (fields : List String)
    (hnd : fields.Nodup) (hsub : ∀ g ∈ fields, g ∈ image_fields) :
    ∀ (data : PropData) (doc : Property) (st : FileStore) (f : String),
      ((update_image_loop fields data doc st).1).getImageField f =
        if f ∈ fields then upd_field_result data doc f else doc.getImageField f := by
  induction fields with
  | nil =>
    intro data doc st f
    simp [update_image_loop]
  | cons g rest ih =>
    intro data doc st f
    obtain ⟨hg, hnd'⟩ := List.nodup_cons.mp hnd
    have hsub' : ∀ x ∈ rest, x ∈ image_fields :=
      fun x hx => hsub x (List.mem_cons_of_mem _ hx)
    have hgim : g ∈ image_fields := hsub g (List.mem_cons_self _ _)
    have ih' := ih hnd' hsub'
    cases hv : data.getImage g with
    | none =>
      have hloop : update_image_loop (g :: rest) data doc st
          = update_image_loop rest data doc st := by
        simp [update_image_loop, hv]
      rw [hloop, ih' data doc st f]
      by_cases hfg : f = g
      · subst hfg
        simp [hg, upd_field_result, hv]
      · simp [List.mem_cons, hfg]
    | some v =>
      simp only [update_image_loop, hv, handle_image_upload_fst doc g v st]
      cases hr : resolve_ref v with
      | none =>
        simp only [hr]
        rw [ih' data doc _ f]
        by_cases hfg : f = g
        · subst hfg
          simp [hg, upd_field_result, hv, hr]
        · simp [List.mem_cons, hfg]
      | some u =>
        by_cases hu : u = ""
        · subst hu
          simp only [hr, bne_self_eq_false, Bool.false_eq_true, if_false]
          rw [ih' data doc _ f]
          by_cases hfg : f = g
          · subst hfg
            simp [hg, upd_field_result, hv, hr]
          · simp [List.mem_cons, hfg]
        · have hu' : (u != "") = true := by simp [hu]
          simp only [hr, hu', if_true]
          rw [ih' data (doc.setImage g u) _ f]
          by_cases hfg : f = g
          · subst hfg
            simp only [hg, List.mem_cons, or_false, if_true]
            have h1 : (doc.setImage f u).getImageField f = u :=
              getImageField_setImage_self doc f u hgim
            simp [hg, h1, upd_field_result, hv, hr, hu']
          · have h2 : (doc.setImage g u).getImageField f = doc.getImageField f :=
              getImageField_setImage_ne doc f g u hfg
            have h3 : upd_field_result data (doc.setImage g u) f
                = upd_field_result data doc f :=
              upd_field_result_congr data doc _ f h2
            simp [List.mem_cons, hfg, h2, h3]

/-- Writing a document back over the rows sharing its name makes the lookup
of that name return the written document. -/
theorem find?_map_replace (l : List Property) (nm : String) (doc p : Property)
    (hdoc : doc.name = nm)
    (hp : l.find? (fun q => q.name == nm) = some p) :
    (l.map (fun q => if q.name == doc.name then doc else q)).find?
        (fun q => q.name == nm) = some doc := by
  induction l with
  | nil => simp at hp
  | cons a t ih =>
    cases hq : (a.name == nm) with
    | true =>
      have h2 : (a.name == doc.name) = true := by rw [hdoc]; exact hq
      have h3 : (doc.name == nm) = true := by simp [hdoc]
      simp only [List.map_cons, h2, if_true]
      exact List.find?_cons_of_pos _ h3
    | false =>
      have hp' : t.find? (fun q => q.name == nm) = some p := by
        rw [List.find?_cons_of_neg _ (by simp [hq])] at hp
        exact hp
      have h2 : (a.name == doc.name) = false := by rw [hdoc]; exact hq
      simp only [List.map_cons, h2, if_false]
      rw [List.find?_cons_of_neg _ (by simp [hq])]
      exact ih hp'

/-! ## Claim C10 -/

/-- Claim C10: if an image slot key is present in the update payload but
its value resolves to no reference (empty value, unrecognized string, or
structured payload missing filename/content — exactly the cases where
`resolve_ref` is `none`), `update_property` leaves that stored image slot
unchanged; and in general an update either keeps a slot's stored value or
writes a non-empty reference, so `update_property` can never clear an image
slot to empty. -/
theorem claim_C10 (db : DB) (st : FileStore) (nm : String) (data : PropData)
    (p : Property) (f : String)
    (hf : f ∈ image_fields)
    (hp : find_property db nm = some p) :
    (∀ v, data.getImage f = some v → resolve_ref v = none →
        ∃ p', find_property ((update_property db st nm data).2.1) nm = some p'
          ∧ p'.getImageField f = p.getImageField f)
    ∧ (∃ p', find_property ((update_property db st nm data).2.1) nm = some p'
        ∧ (p'.getImageField f = p.getImageField f ∨ p'.getImageField f ≠ "")) := by
  have hnodup : image_fields.Nodup := by decide
  have hsub : ∀ g ∈ image_fields, g ∈ image_fields := fun g hg => hg
  have hp' : db.properties.find? (fun q => q.name == nm) = some p := hp
  have hpname := List.find?_some hp'
  have hpname' : p.name = nm := by simpa using hpname
  have h21 : (update_property db st nm data).2.1
      = save_property db
          (update_image_loop image_fields data (set_updateable_fields p data) st).1 := by
    simp [update_property, hp]
  have hname : ((update_image_loop image_fields data (set_updateable_fields p data) st).1).name
      = nm := by
    rw [update_image_loop_name]
    exact hpname'
  have hfind2 : find_property ((update_property db st nm data).2.1) nm
      = some (update_image_loop image_fields data (set_updateable_fields p data) st).1 := by
    rw [h21, find_property, save_property]
    exact find?_map_replace db.properties nm _ p hname hp'
  have hfield : ((update_image_loop image_fields data (set_updateable_fields p data) st).1).getImageField f
      = upd_field_result data p f := by
    rw [update_image_loop_getImageField image_fields hnodup hsub data _ st f, if_pos hf]
    exact upd_field_result_congr data p _ f (set_updateable_fields_getImageField p data f)
  constructor
  · intro v hv hr
    refine ⟨_, hfind2, ?_⟩
    rw [hfield]
    unfold upd_field_result
    rw [hv]
    simp [hr]
  · refine ⟨_, hfind2, ?_⟩
    rw [hfield]
    unfold upd_field_result
    cases hv : data.getImage f with
    | none => simp
    | some v =>
      cases hr : resolve_ref v with
      | none => simp [hr]
      | some u =>
        by_cases hu : u = ""
        · simp [hr, hu]
        · right
          simpa [hr, hu] using hu

/-- Witness for claim C10: an update whose "image" payload is missing its
content leaves the stored "/files/old.png" reference untouched. -/
theorem claim_C10_witness :
    ∃ p', find_property
        ((update_property
            ⟨[], [], [],
              [{ name := "PROP-1", title := some "Flat", location := none,
                 price_tzs := none, bedrooms := none, bathroom := none,
                 square_meters := none, description := none, status := none,
                 image := "/files/old.png", image_1 := "", image_2 := "", image_3 := "",
                 image_4 := "" }]⟩
            ⟨[]⟩ "PROP-1"
            ⟨none, none, none, none, none, none, none, none,
              some (.dict [("filename", "a.png")]), none, none, none, none⟩).2.1) "PROP-1"
        = some p'
      ∧ p'.getImageField "image"
          = ({ name := "PROP-1", title := some "Flat", location := none,
               price_tzs := none, bedrooms := none, bathroom := none,
               square_meters := none, description := none, status := none,
               image := "/files/old.png", image_1 := "", image_2 := "", image_3 := "",
               image_4 := "" } : Property).getImageField "image" :=
  (claim_C10
    ⟨[], [], [],
      [{ name := "PROP-1", title := some "Flat", location := none,
         price_tzs := none, bedrooms := none, bathroom := none,
         square_meters := none, description := none, status := none,
         image := "/files/old.png", image_1 := "", image_2 := "", image_3 := "",
         image_4 := "" }]⟩
    ⟨[]⟩ "PROP-1"
    ⟨none, none, none, none, none, none, none, none,
      some (.dict [("filename", "a.png")]), none, none, none, none⟩
    { name := "PROP-1", title := some "Flat", location := none,
      price_tzs := none, bedrooms := none, bathroom := none,
      square_meters := none, description := none, status := none,
      image := "/files/old.png", image_1 := "", image_2 := "", image_3 := "",
      image_4 := "" }
    "image" (by decide) rfl).1 (.dict [("filename", "a.png")]) rfl rfl

/-! ## Claim C6 -/

/-- Claim C6: `get_active_properties_count` counts the distinct property
identifiers among the tenant's "Active" rentals (the cardinality of the set
of those identifiers); in particular, when the tenant's active rentals are
exactly two rentals on the same property, the count is 1, not 2. -/
theorem claim_C6 (db : DB) (tenant : String) :
    (get_active_properties_count db tenant).active_properties_count
        = ((db.rentals.filter (fun r => r.tenant == tenant && r.status == "Active")).map
            (fun r => r.property)).toFinset.card
    ∧ (∀ r1 r2 : Rental,
        db.rentals.filter (fun r => r.tenant == tenant && r.status == "Active") = [r1, r2] →
        r1.property = r2.property →
        (get_active_properties_count db tenant).active_properties_count = 1) := by
  constructor
  · rw [List.card_toFinset]
    rfl
  · intro r1 r2 hfil hprop
    unfold get_active_properties_count
    rw [hfil]
    simp [List.dedup_cons_of_mem, hprop]

/-- Witness for claim C6: two active rentals on the same property count
as one. -/
theorem claim_C6_witness :
    (get_active_properties_count
        ⟨[], [],
          [⟨"R-1", "PROP-1", "alice", "Active", "2024-01-01", "2024-12-31", 100, 1⟩,
           ⟨"R-2", "PROP-1", "alice", "Active", "2024-02-01", "2024-12-31", 120, 2⟩],
          []⟩
        "alice").active_properties_count = 1 :=
  (claim_C6 _ "alice").2
    ⟨"R-1", "PROP-1", "alice", "Active", "2024-01-01", "2024-12-31", 100, 1⟩
    ⟨"R-2", "PROP-1", "alice", "Active", "2024-02-01", "2024-12-31", 120, 2⟩
    (by decide) rfl

/-! ## Helper lemmas: the dashboard computation -/

/-- Sequencing after a successful step runs the continuation. -/
theorem qbind_ok {α β : Type} (x : QM α) (f : α → QM β) (k k' : Nat) (a : α)
    (hx : x k = .ok (a, k')) : qbind x f k = f a k' := by
  simp [qbind, hx]

/-- When no query raises, every query succeeds and advances the counter. -/
theorem runQuery_noraise {α : Type} (env : QEnv) (h : ∀ k, env.raises k = none)
    (res : α) (k : Nat) : runQuery env res k = .ok (res, k + 1) := by
  simp [runQuery, h]

/-- A loop whose body always succeeds with a value independent of the
counter succeeds with the mapped list. -/
theorem forEachQ_noraise {α β : Type} (f : α → QM β) (g : α → β)
    (hf : ∀ a k, ∃ k', f a k = .ok (g a, k')) :
    ∀ (l : List α) (k : Nat), ∃ k', forEachQ f l k = .ok (l.map g, k') := by
  intro l
  induction l with
  | nil => intro k; exact ⟨k, rfl⟩
  | cons a t ih =>
    intro k
    obtain ⟨k1, h1⟩ := hf a k
    obtain ⟨k2, h2⟩ := ih k1
    refine ⟨k2, ?_⟩
    simp [forEachQ, qbind, h1, h2, qpure]

/-- When no query raises, the dashboard endpoint computes its pure
denotation with no logged error. -/
theorem get_users_with_roles_noraise (env : QEnv) (h : ∀ k, env.raises k = none) :
    get_users_with_roles env = (get_users_with_roles_noexc env.db, none) := by
  have hf1 : ∀ (u : User) (k : Nat), ∃ k',
      roles_step env u k = .ok ((u, rolesOf env.db u.name), k') := by
    intro u k
    refine ⟨k + 1, ?_⟩
    unfold roles_step
    rw [qbind_ok _ _ k (k + 1) _ (runQuery_noraise env h _ k)]
    rfl
  have hf2 : ∀ (ur : User × List String) (k : Nat), ∃ k',
      rental_step env ur k = .ok (build_user_info env.db ur.1 ur.2, k') := by
    intro ur k
    by_cases hten : "Tenants" ∈ ur.2
    · refine ⟨k + 1, ?_⟩
      unfold rental_step build_user_info
      rw [if_pos hten, if_pos hten,
        qbind_ok _ _ k (k + 1) _ (runQuery_noraise env h _ k)]
      cases hr : active_rental_row env.db ur.1.name with
      | some ri => simp [hr, qpure]
      | none => simp [hr, qpure]
    · refine ⟨k, ?_⟩
      unfold rental_step build_user_info
      rw [if_neg hten, if_neg hten]
      rfl
  obtain ⟨kA, hA⟩ := forEachQ_noraise (roles_step env)
    (fun u => (u, rolesOf env.db u.name)) hf1 (select_dashboard_users env.db) 1
  obtain ⟨kB, hB⟩ := forEachQ_noraise (rental_step env)
    (fun ur => build_user_info env.db ur.1 ur.2) hf2
    ((select_dashboard_users env.db).map (fun u => (u, rolesOf env.db u.name))) kA
  have e1 : get_users_with_roles_try env 0
      = qbind (forEachQ (roles_step env) (select_dashboard_users env.db))
          (fun usersRoles => forEachQ (rental_step env) usersRoles) 1 :=
    qbind_ok _ _ 0 1 _ (runQuery_noraise env h _ 0)
  have e2 : qbind (forEachQ (roles_step env) (select_dashboard_users env.db))
        (fun usersRoles => forEachQ (rental_step env) usersRoles) 1
      = forEachQ (rental_step env)
          ((select_dashboard_users env.db).map (fun u => (u, rolesOf env.db u.name))) kA :=
    qbind_ok _ _ 1 kA _ hA
  have step : get_users_with_roles_try env 0
      = .ok (((select_dashboard_users env.db).map
              (fun u => (u, rolesOf env.db u.name))).map
            (fun ur => build_user_info env.db ur.1 ur.2), kB) :=
    e1.trans (e2.trans hB)
  unfold get_users_with_roles
  rw [step]
  unfold get_users_with_roles_noexc
  simp [List.map_map, Function.comp]

/-- Insertion keeps exactly the members. -/
theorem mem_insert_by_name (u x : User) (l : List User) :
    x ∈ insert_by_name u l ↔ x = u ∨ x ∈ l := by
  induction l with
  | nil => simp [insert_by_name]
  | cons v t ih =>
    unfold insert_by_name
    by_cases hle : u.full_name ≤ v.full_name
    · simp [hle]
    · simp [hle, ih]
      tauto

/-- Ordering by full name keeps exactly the members. -/
theorem mem_order_by_full_name (x : User) (l : List User) :
    x ∈ order_by_full_name l ↔ x ∈ l := by
  induction l with
  | nil => simp [order_by_full_name]
  | cons u t ih => simp [order_by_full_name, mem_insert_by_name, ih]

/-- A user is selected for the dashboard iff enabled and holding one of the
two dashboard roles. -/
theorem mem_select_dashboard_users (db : DB) (u : User) :
    u ∈ select_dashboard_users db ↔
      u ∈ db.users ∧ u.enabled = true
      ∧ (db.has_roles.any (fun hr =>
          hr.parent == u.name && (hr.role == "Tenants" || hr.role == "System Manager")))
        = true := by
  unfold select_dashboard_users
  rw [mem_order_by_full_name, List.mem_dedup, List.mem_filter]
  simp [Bool.and_eq_true]

/-! ## Claim C5 -/

/-- Claim C5: for an enabled user holding the "Tenants" role whose active
rentals are exactly two, created earlier and later, the dashboard attaches
the later-created rental's property identifier, property name, lease start
and end, and monthly rent to that user's entry, with rental status
"Active". -/
theorem claim_C5 (env : QEnv) (u : User) (r1 r2 : Rental) (p : Property)
    (hraise : ∀ k, env.raises k = none)
    (hu : u ∈ env.db.users) (hen : u.enabled = true)
    (hrole : "Tenants" ∈ rolesOf env.db u.name)
    (hfil : env.db.rentals.filter (fun r => r.tenant == u.name && r.status == "Active")
        = [r1, r2])
    (hcr : r1.creation < r2.creation)
    (hp : env.db.properties.find? (fun q => q.name == r2.property) = some p) :
    ∃ info ∈ (get_users_with_roles env).1,
      info.name = u.name
      ∧ info.assigned_property = some r2.property
      ∧ info.property_name = p.title
      ∧ info.lease_start = some r2.start_date
      ∧ info.lease_end = some r2.end_date
      ∧ info.monthly_rent = some r2.monthly_rent
      ∧ info.rental_status = "Active" := by
  rw [get_users_with_roles_noraise env hraise]
  have hany : (env.db.has_roles.any (fun hr =>
      hr.parent == u.name && (hr.role == "Tenants" || hr.role == "System Manager")))
      = true := by
    unfold rolesOf at hrole
    rw [List.mem_map] at hrole
    obtain ⟨hr, hmem, hrr⟩ := hrole
    rw [List.mem_filter] at hmem
    rw [List.any_eq_true]
    refine ⟨hr, hmem.1, ?_⟩
    simp [hmem.2, hrr]
  have hmem : u ∈ select_dashboard_users env.db :=
    (mem_select_dashboard_users env.db u).mpr ⟨hu, hen, hany⟩
  refine ⟨build_user_info env.db u (rolesOf env.db u.name), ?_, ?_⟩
  · unfold get_users_with_roles_noexc
    exact List.mem_map_of_mem _ hmem
  · have hlat : latest_active_rental env.db.rentals u.name = some r2 := by
      unfold latest_active_rental
      rw [hfil]
      simp [hcr]
    have hrow : active_rental_row env.db u.name = some
        { name := r2.name, property := r2.property, start_date := r2.start_date,
          end_date := r2.end_date, monthly_rent := r2.monthly_rent,
          property_name := (env.db.properties.find? (fun q => q.name == r2.property)).bind
            (fun q => q.title) } := by
      unfold active_rental_row
      rw [hlat]
      rfl
    unfold build_user_info
    rw [if_pos hrole, hrow]
    simp [tenant_active_info, base_user_info, hp]

/-! ## Claim C9 -/

/-- Claim C9: whenever the try block of `get_users_with_roles` raises, the
endpoint returns the empty list — not a partial result and not an error
payload — and the error text survives only in the server-side log (the
second component of the model's result). -/
theorem claim_C9 (env : QEnv) (e : String)
    (h : get_users_with_roles_try env 0 = .error e) :
    get_users_with_roles env = ([], some ("Error in get_users_with_roles: " ++ e)) := by
  unfold get_users_with_roles
  rw [h]

/-- Concrete store for the C5 witness: one enabled tenant with two active
rentals, the later one on "PROP-2". -/
def c5_db : DB :=
  { users := [⟨"alice", "alice@example.com", "Alice A", "", "+255700000001", true⟩],
    has_roles := [⟨"alice", "Tenants"⟩],
    rentals :=
      [⟨"R-1", "PROP-1", "alice", "Active", "2024-01-01", "2024-06-30", 100, 1⟩,
       ⟨"R-2", "PROP-2", "alice", "Active", "2024-07-01", "2024-12-31", 120, 2⟩],
    properties :=
      [{ name := "PROP-2", title := some "Villa", location := none, price_tzs := none,
         bedrooms := none, bathroom := none, square_meters := none, description := none,
         status := none, image := "", image_1 := "", image_2 := "", image_3 := "",
         image_4 := "" }] }

/-- The C5 witness environment: no query raises. -/
def c5_env : QEnv := { db := c5_db, raises := fun _ => none }

/-- Witness for claim C5 on the concrete two-rental store. -/
theorem claim_C5_witness :
    ∃ info ∈ (get_users_with_roles c5_env).1,
      info.name = "alice"
      ∧ info.assigned_property = some "PROP-2"
      ∧ info.property_name = some "Villa"
      ∧ info.lease_start = some "2024-07-01"
      ∧ info.lease_end = some "2024-12-31"
      ∧ info.monthly_rent = some 120
      ∧ info.rental_status = "Active" :=
  claim_C5 c5_env
    ⟨"alice", "alice@example.com", "Alice A", "", "+255700000001", true⟩
    ⟨"R-1", "PROP-1", "alice", "Active", "2024-01-01", "2024-06-30", 100, 1⟩
    ⟨"R-2", "PROP-2", "alice", "Active", "2024-07-01", "2024-12-31", 120, 2⟩
    { name := "PROP-2", title := some "Villa", location := none, price_tzs := none,
      bedrooms := none, bathroom := none, square_meters := none, description := none,
      status := none, image := "", image_1 := "", image_2 := "", image_3 := "",
      image_4 := "" }
    (fun _ => rfl) (by decide) rfl (by decide) (by decide) (by decide) rfl

/-- The C9 witness environment: one selectable user, and the second
backing-store query (the roles lookup) raises. -/
def c9_env : QEnv :=
  { db := { users := [⟨"alice", "alice@example.com", "Alice A", "", "+255700000001", true⟩],
            has_roles := [⟨"alice", "Tenants"⟩], rentals := [], properties := [] },
    raises := fun k => if k == 1 then some "lost connection" else none }

/-- Witness for claim C9: the first query succeeds, the roles query raises,
and the endpoint still returns the empty list with the logged message. -/
theorem claim_C9_witness :
    get_users_with_roles c9_env
      = ([], some ("Error in get_users_with_roles: " ++ "lost connection")) :=
  claim_C9 c9_env "lost connection" rfl
